import Mathlib

/-!
Verification of the AI-Live-Chat-Agent reply pipeline.

This file embeds the server-side core of the repository in Lean:
the fixed-window rate limiter (`src/server/src/middleware/rateLimiter.ts`),
the Gemini reply generator with retry / fallback / timeout
(`src/server/src/services/gemini.service.ts`), the chat orchestrator and
conversation resolver (`src/server/src/services/chat.service.ts`), and the
HTTP validation layer of `POST /api/chat/message` (`chat.routes.ts`).
Time, the upstream LLM and the persistence store are made explicit
parameters; JavaScript `Map`s become functions into `Option`.
-/

namespace AIChat

/-! ## Rate limiter (`rateLimiter.ts`)

`RateLimitConfig`, `RateLimitEntry` and the `store : Map<string, RateLimitEntry>`
of class `RateLimiter`.  `Date.now()` is passed in explicitly as `now`. -/

structure RateLimitConfig where
  windowMs : Nat
  maxRequests : Nat
deriving Repr, DecidableEq

structure RateLimitEntry where
  count : Nat
  resetTime : Nat
deriving Repr, DecidableEq

/-- The in-memory store `Map<string, RateLimitEntry>`. -/
def RLStore : Type := String → Option RateLimitEntry

/-- `this.store.set(k, e)`. -/
def setEntry (s : RLStore) (k : String) (e : RateLimitEntry) : RLStore :=
  fun k2 => if k2 = k then some e else s k2

/-- `this.store.delete(k)` (used to phrase "as if the key had never been seen"). -/
def removeKey (s : RLStore) (k : String) : RLStore :=
  fun k2 => if k2 = k then none else s k2

/-- `RateLimiter.isRateLimited(sessionId, config)` at current time `now`.
Returns the boolean result together with the updated store. -/
def isRateLimited (now : Nat) (sessionId : String) (config : RateLimitConfig)
    (s : RLStore) : Bool × RLStore :=
  match s sessionId with
  | none =>
      (false, setEntry s sessionId ⟨1, now + config.windowMs⟩)
  | some entry =>
      if entry.resetTime < now then
        (false, setEntry s sessionId ⟨1, now + config.windowMs⟩)
      else
        (decide (config.maxRequests < entry.count + 1),
         setEntry s sessionId ⟨entry.count + 1, entry.resetTime⟩)

/-- `RateLimiter.getRemaining(sessionId, config)` at current time `now`
(`Math.max(0, maxRequests - count)` is truncated subtraction on `Nat`). -/
def getRemaining (now : Nat) (sessionId : String) (config : RateLimitConfig)
    (s : RLStore) : Nat :=
  match s sessionId with
  | none => config.maxRequests
  | some entry =>
      if entry.resetTime < now then config.maxRequests
      else config.maxRequests - entry.count

/-- A sequence of `isRateLimited` calls for one key, at the given times,
collecting the boolean results in order and threading the store. -/
def callTimes (sessionId : String) (config : RateLimitConfig) :
    List Nat → RLStore → List Bool × RLStore
  | [], s => ([], s)
  | t :: ts, s =>
      let r := isRateLimited t sessionId config s
      let rest := callTimes sessionId config ts r.2
      (r.1 :: rest.1, rest.2)

theorem setEntry_same (s : RLStore) (k : String) (e : RateLimitEntry) :
    setEntry s k e k = some e := by
  simp [setEntry]

theorem setEntry_other (s : RLStore) (k k2 : String) (e : RateLimitEntry)
    (h : k2 ≠ k) : setEntry s k e k2 = s k2 := by
  simp [setEntry, h]

/-- In-window calls: starting from an entry `⟨c, R⟩` for the key, a sequence of
calls all at times `≤ R` produces results `maxRequests < c+1, c+2, ...` and
leaves the entry at `⟨c + len, R⟩`. -/
theorem callTimes_within (k : String) (cfg : RateLimitConfig) (ts : List Nat) :
    ∀ (c R : Nat) (s : RLStore), s k = some ⟨c, R⟩ → (∀ u ∈ ts, u ≤ R) →
      (callTimes k cfg ts s).1
          = (List.range ts.length).map (fun j => decide (cfg.maxRequests < c + j + 1))
      ∧ (callTimes k cfg ts s).2 k = some ⟨c + ts.length, R⟩ := by
  induction ts with
  | nil => intro c R s hs _; exact ⟨rfl, by simpa [callTimes] using hs⟩
  | cons t ts ih =>
      intro c R s hs hin
      have hble : ¬ R < t := not_lt.mpr (hin t (List.mem_cons_self t ts))
      have hstep : isRateLimited t k cfg s
          = (decide (cfg.maxRequests < c + 1), setEntry s k ⟨c + 1, R⟩) := by
        simp [isRateLimited, hs, hble]
      have hnext : (setEntry s k ⟨c + 1, R⟩) k = some ⟨c + 1, R⟩ := setEntry_same ..
      have hin' : ∀ u ∈ ts, u ≤ R := fun u hu => hin u (List.mem_cons_of_mem _ hu)
      obtain ⟨ih1, ih2⟩ := ih (c + 1) R (setEntry s k ⟨c + 1, R⟩) hnext hin'
      constructor
      · have hrange : (List.range (t :: ts).length).map
              (fun j => decide (cfg.maxRequests < c + j + 1))
            = decide (cfg.maxRequests < c + 1)
              :: (List.range ts.length).map
                  (fun j => decide (cfg.maxRequests < c + 1 + j + 1)) := by
          simp only [List.length_cons, List.range_succ_eq_map, List.map_cons, List.map_map]
          congr 1
          apply List.map_congr_left
          intro j _
          simp only [Function.comp_apply, decide_eq_decide]
          omega
        rw [hrange]
        simp [callTimes, hstep, ih1]
      · simpa [callTimes, hstep, List.length_cons, Nat.add_comm, Nat.add_assoc,
          Nat.add_left_comm] using ih2

theorem getD_range_map (f : Nat → Bool) (n i : Nat) (h : i < n) (d : Bool) :
    ((List.range n).map f).getD i d = f i := by
  rw [List.getD_eq_getElem?_getD, List.getElem?_map, List.getElem?_range h]
  rfl

/-- Reading a key the `isRateLimited` call did not target is unchanged. -/
theorem isRateLimited_snd_other (now : Nat) (k : String) (cfg : RateLimitConfig)
    (s : RLStore) (B : String) (h : B ≠ k) :
    (isRateLimited now k cfg s).2 B = s B := by
  rcases hs : s k with _ | e
  · simp [isRateLimited, hs, setEntry, h]
  · by_cases hlt : e.resetTime < now <;>
      simp [isRateLimited, hs, hlt, setEntry, h]

theorem callTimes_snd_other (k : String) (cfg : RateLimitConfig) (times : List Nat) :
    ∀ (s : RLStore) (B : String), B ≠ k → (callTimes k cfg times s).2 B = s B := by
  induction times with
  | nil => intro s B _; rfl
  | cons t ts ih =>
      intro s B h
      have := ih (isRateLimited t k cfg s).2 B h
      simpa [callTimes, this] using isRateLimited_snd_other t k cfg s B h

/-- `getRemaining` only reads the entry of its own key. -/
theorem getRemaining_congr (now : Nat) (B : String) (cfg : RateLimitConfig)
    (s1 s2 : RLStore) (h : s1 B = s2 B) :
    getRemaining now B cfg s1 = getRemaining now B cfg s2 := by
  unfold getRemaining
  rw [h]

/-- The boolean result of `isRateLimited` only reads the entry of its own key. -/
theorem isRateLimited_fst_congr (now : Nat) (B : String) (cfg : RateLimitConfig)
    (s1 s2 : RLStore) (h : s1 B = s2 B) :
    (isRateLimited now B cfg s1).1 = (isRateLimited now B cfg s2).1 := by
  unfold isRateLimited
  rw [h]
  rcases s2 B with _ | e
  · rfl
  · by_cases hlt : e.resetTime < now <;> simp [hlt]

/-- Claim C1 — fixed-window rate limiting: starting from a key with no entry,
a sequence of calls all within the first call's window yields result
`maxRequests < i + 1` for the `i`-th call (0-based): calls `1..maxRequests`
return `false`, every later call returns `true`.  Moreover, whenever the
current time is strictly past a stored reset time, the next call resets the
entry to count 1 with a fresh window, returns `false`, and behaves exactly as
if the key had never been seen. -/
theorem rate_limiter_fixed_window_c1
    (k : String) (cfg : RateLimitConfig) (s : RLStore) (t : Nat) (ts : List Nat)
    (hm : 1 ≤ cfg.maxRequests)
    (hfresh : s k = none)
    (hwin : ∀ u ∈ ts, u ≤ t + cfg.windowMs) :
    ((callTimes k cfg (t :: ts) s).1
        = (List.range (ts.length + 1)).map (fun i => decide (cfg.maxRequests < i + 1))
      ∧ (∀ i, i < ts.length + 1 → i + 1 ≤ cfg.maxRequests →
          (callTimes k cfg (t :: ts) s).1.getD i true = false)
      ∧ (∀ i, i < ts.length + 1 → cfg.maxRequests < i + 1 →
          (callTimes k cfg (t :: ts) s).1.getD i false = true))
    ∧ (∀ (now : Nat) (k2 : String) (s2 : RLStore) (e : RateLimitEntry),
        s2 k2 = some e → e.resetTime < now →
        isRateLimited now k2 cfg s2 = (false, setEntry s2 k2 ⟨1, now + cfg.windowMs⟩)
        ∧ isRateLimited now k2 cfg s2 = isRateLimited now k2 cfg (removeKey s2 k2)) := by
  have hstep : isRateLimited t k cfg s = (false, setEntry s k ⟨1, t + cfg.windowMs⟩) := by
    simp [isRateLimited, hfresh]
  obtain ⟨h1, _h2⟩ := callTimes_within k cfg ts 1 (t + cfg.windowMs)
      (setEntry s k ⟨1, t + cfg.windowMs⟩) (setEntry_same ..) hwin
  have hlist : (callTimes k cfg (t :: ts) s).1
      = (List.range (ts.length + 1)).map (fun i => decide (cfg.maxRequests < i + 1)) := by
    have hrhs : (List.range (ts.length + 1)).map (fun i => decide (cfg.maxRequests < i + 1))
        = false :: (List.range ts.length).map (fun j => decide (cfg.maxRequests < 1 + j + 1)) := by
      simp only [List.range_succ_eq_map, List.map_cons, List.map_map]
      congr 1
      · simpa using Nat.not_lt.mpr hm
      · apply List.map_congr_left
        intro j _
        simp only [Function.comp_apply, decide_eq_decide]
        omega
    rw [hrhs]
    simp [callTimes, hstep, h1]
  refine ⟨⟨hlist, ?_, ?_⟩, ?_⟩
  · intro i hi hle
    rw [hlist, getD_range_map _ _ _ hi]
    simp only [decide_eq_false_iff_not]
    omega
  · intro i hi hgt
    rw [hlist, getD_range_map _ _ _ hi]
    simpa using hgt
  · intro now k2 s2 e hs2 hexp
    have hset : ∀ e2 : RateLimitEntry,
        setEntry (removeKey s2 k2) k2 e2 = setEntry s2 k2 e2 := by
      intro e2
      funext k3
      by_cases hk : k3 = k2 <;> simp [setEntry, removeKey, hk]
    constructor
    · simp [isRateLimited, hs2, hexp]
    · simp [isRateLimited, hs2, hexp, removeKey, hset]

/-- Closed instance of the fixed-window theorem: window 60000 ms, max 3,
four calls at times 0,1,2,3 give `[false, false, false, true]`; and an
expired entry behaves as a never-seen key. -/
theorem rate_limiter_fixed_window_c1_witness :
    (callTimes "a" ⟨60000, 3⟩ [0, 1, 2, 3] (fun _ => none)).1 = [false, false, false, true]
    ∧ isRateLimited 70000 "a" ⟨60000, 3⟩ (setEntry (fun _ => none) "a" ⟨5, 60000⟩)
        = isRateLimited 70000 "a" ⟨60000, 3⟩
            (removeKey (setEntry (fun _ => none) "a" ⟨5, 60000⟩) "a") := by
  have h := rate_limiter_fixed_window_c1 "a" ⟨60000, 3⟩ (fun _ => none) 0 [1, 2, 3]
      (by decide) rfl (by decide)
  refine ⟨?_, ?_⟩
  · rw [h.1.1]
    decide
  · exact (h.2 70000 "a" (setEntry (fun _ => none) "a" ⟨5, 60000⟩) ⟨5, 60000⟩
      (setEntry_same ..) (by decide)).2

/-- Claim C8 — key independence: any sequence of `isRateLimited` calls on key
`A` leaves a distinct key `B`'s stored entry, its `getRemaining` value, and
the outcome of its next `isRateLimited` call unchanged. -/
theorem rate_limiter_key_independence_c8
    (A B : String) (hAB : A ≠ B) (cfg : RateLimitConfig) (s : RLStore)
    (times : List Nat) (now : Nat) :
    (callTimes A cfg times s).2 B = s B
    ∧ getRemaining now B cfg ((callTimes A cfg times s).2) = getRemaining now B cfg s
    ∧ (isRateLimited now B cfg ((callTimes A cfg times s).2)).1
        = (isRateLimited now B cfg s).1 := by
  have hB : (callTimes A cfg times s).2 B = s B :=
    callTimes_snd_other A cfg times s B (Ne.symm hAB)
  exact ⟨hB, getRemaining_congr now B cfg _ _ hB, isRateLimited_fst_congr now B cfg _ _ hB⟩

/-- Closed instance of key independence: three calls on `"a"` leave `"b"`
untouched under the default config (60 s window, 20 requests). -/
theorem rate_limiter_key_independence_c8_witness :
    "a" ≠ "b"
    ∧ ((callTimes "a" ⟨60000, 20⟩ [0, 0, 0] (fun _ => none)).2 "b"
          = (fun _ => none : RLStore) "b"
      ∧ getRemaining 0 "b" ⟨60000, 20⟩ ((callTimes "a" ⟨60000, 20⟩ [0, 0, 0] (fun _ => none)).2)
          = getRemaining 0 "b" ⟨60000, 20⟩ (fun _ => none)
      ∧ (isRateLimited 0 "b" ⟨60000, 20⟩ ((callTimes "a" ⟨60000, 20⟩ [0, 0, 0] (fun _ => none)).2)).1
          = (isRateLimited 0 "b" ⟨60000, 20⟩ (fun _ => none)).1) :=
  ⟨by decide,
   rate_limiter_key_independence_c8 "a" "b" (by decide) ⟨60000, 20⟩ (fun _ => none) [0, 0, 0] 0⟩

/-- Claim C10 — the first request of a window is never limited: on a missing
or expired entry, `isRateLimited` stores count 1 with a fresh window and
returns `false` for every config, without consulting `maxRequests`. -/
theorem rate_limiter_first_request_unlimited_c10
    (now : Nat) (k : String) (cfg : RateLimitConfig) (s : RLStore)
    (h : s k = none ∨ ∃ e, s k = some e ∧ e.resetTime < now) :
    isRateLimited now k cfg s = (false, setEntry s k ⟨1, now + cfg.windowMs⟩) := by
  rcases h with h | ⟨e, hs, hlt⟩
  · simp [isRateLimited, h]
  · simp [isRateLimited, hs, hlt]

/-- Closed instance with `maxRequests = 0`: even then the first request of a
window is reported as not limited. -/
theorem rate_limiter_first_request_unlimited_c10_witness :
    ((fun _ => none : RLStore) "k" = none
      ∨ ∃ e, (fun _ => none : RLStore) "k" = some e ∧ e.resetTime < 5)
    ∧ isRateLimited 5 "k" ⟨1000, 0⟩ (fun _ => none)
        = (false, setEntry (fun _ => none) "k" ⟨1, 5 + 1000⟩) :=
  ⟨Or.inl rfl,
   rate_limiter_first_request_unlimited_c10 5 "k" ⟨1000, 0⟩ (fun _ => none) (Or.inl rfl)⟩

/-! ## History formatter (`gemini.service.ts`, `formatHistoryForGemini`) -/

structure TextPart where
  text : String
deriving Repr, DecidableEq

/-- A turn in the Gemini chat format. -/
structure ChatMessage where
  role : String
  parts : List TextPart
deriving Repr, DecidableEq

/-- A stored message as handed to the formatter: `{role, text}`. -/
structure StoredMessage where
  role : String
  text : String
deriving Repr, DecidableEq

/-- `GeminiService.formatHistoryForGemini(messages)`. -/
def formatHistoryForGemini (messages : List StoredMessage) : List ChatMessage :=
  messages.map fun msg =>
    { role := if msg.role = "ai" then "model" else msg.role
      parts := [{ text := msg.text }] }

/-! ## Reply generator (`gemini.service.ts`, `generateReply`)

The upstream provider is a black box: per physical call (1-based index) and
active model name it yields a settle time and a result.  `withTimeout` races
the call against the 30 s timer; catch-block classification, the 404 model
fallback, and the 10 s / 30 s / 65 s retry schedule follow the source. -/

/-- `pat` occurs at the head of `hay`. -/
def charsStartWith : List Char → List Char → Bool
  | _, [] => true
  | [], _ :: _ => false
  | a :: as, b :: bs => a == b && charsStartWith as bs

/-- `pat` occurs somewhere in `hay`. -/
def charsHaveSegment : List Char → List Char → Bool
  | [], pat => pat.isEmpty
  | a :: as, pat => charsStartWith (a :: as) pat || charsHaveSegment as pat

/-- JavaScript `String.prototype.includes`. -/
def strIncludes (s pat : String) : Bool :=
  charsHaveSegment s.toList pat.toList

/-- Outcome of one physical upstream `sendMessage` call: resolves with a
reply (and optional token usage), or rejects with an error carrying an
optional HTTP status and a message. -/
inductive UpstreamResult where
  | ok (reply : String) (tokens : Option Nat)
  | err (status : Option Nat) (message : String)
deriving Repr, DecidableEq

/-- The upstream provider: result and settle time (in ms after the request
starts) of the `i`-th physical call, as a function of the active model name. -/
structure UpstreamSpec where
  result : Nat → String → UpstreamResult
  settleMs : Nat → String → Nat

def defaultModel : String := "gemini-3-flash-preview"

def geminiMaxRetries : Nat := 3

def geminiTimeoutMs : Nat := 30000

def geminiRetryDelays : List Nat := [10000, 30000, 65000]

/-- Message of the error created by `withTimeout` when the 30 s timer wins. -/
def timedOutMessage : String := "Gemini API request timed out"

def rateLimitExceededMessage : String :=
  "RATE_LIMIT_EXCEEDED: Please try again in a few moments. Consider upgrading your API plan for higher limits."

def modelNotFoundMessage : String := "MODEL_NOT_FOUND"

def aiServiceErrorMessage (m : String) : String := "AI_SERVICE_ERROR: " ++ m

def maxRetriesMessage : String := aiServiceErrorMessage "Max retries exceeded"

/-- `delays[attempt - 1] || 10000` — JavaScript `||` treats a missing element
(and `0`) as falsy. -/
def retryDelay (attempt : Nat) : Nat :=
  let d := (geminiRetryDelays.get? (attempt - 1)).getD 0
  if d = 0 then 10000 else d

/-- `error.status === 429 || error.message?.includes('429') ||
error.message?.includes('quota')`. -/
def isRateLimitErr (status : Option Nat) (message : String) : Bool :=
  status == some 429 || strIncludes message "429" || strIncludes message "quota"

/-- What the catch block decides to do with an upstream error. -/
inductive CatchDecision where
  | retryFallback
  | retrySleep (delay : Nat)
  | throwMsg (msg : String)
deriving Repr, DecidableEq

/-- The catch block of `generateReply`, in source order: model fallback on
404 for a non-default model, sleep-and-retry on a rate-limit error with
attempts left, `RATE_LIMIT_EXCEEDED` on a rate-limit error otherwise,
`MODEL_NOT_FOUND` on a remaining 404, else the generic error. -/
def catchDecision (maxRetries attempt : Nat) (modelName : String)
    (status : Option Nat) (msg : String) : CatchDecision :=
  if status == some 404 && modelName != defaultModel then
    .retryFallback
  else if isRateLimitErr status msg && decide (attempt < maxRetries) then
    .retrySleep (retryDelay attempt)
  else if isRateLimitErr status msg then
    .throwMsg rateLimitExceededMessage
  else if status == some 404 then
    .throwMsg modelNotFoundMessage
  else
    .throwMsg (aiServiceErrorMessage msg)

/-- Result of a `generateReply` run. -/
inductive GenOutcome where
  | ok (reply : String) (tokens : Option Nat) (responseTime : Nat)
  | thrown (message : String)
deriving Repr, DecidableEq

/-- Observable trace of a `generateReply` run: its outcome, the model name
used by each physical upstream call (in order), and the retry sleeps
performed (in order). -/
structure GenTrace where
  outcome : GenOutcome
  callsMade : List String
  sleeps : List Nat
deriving Repr, DecidableEq

/-- The attempt loop of `generateReply`.  `fuel = maxRetries - attempt + 1`
decreases on every `continue` — including the fallback `continue`, since
`continue` in a JavaScript `for` loop runs the `attempt++` update. -/
def genLoop (spec : UpstreamSpec) (maxRetries : Nat) :
    Nat → Nat → Nat → Nat → String → List String → List Nat → GenTrace
  | 0, _, _, _, _, calls, sleeps => ⟨.thrown maxRetriesMessage, calls, sleeps⟩
  | fuel + 1, attempt, callIdx, clock, modelName, calls, sleeps =>
      let settled := spec.settleMs callIdx modelName
      let outcome : UpstreamResult :=
        if settled ≤ geminiTimeoutMs then spec.result callIdx modelName
        else .err none timedOutMessage
      let clock2 := clock + min settled geminiTimeoutMs
      match outcome with
      | .ok reply tokens => ⟨.ok reply tokens clock2, calls ++ [modelName], sleeps⟩
      | .err status msg =>
          match catchDecision maxRetries attempt modelName status msg with
          | .retryFallback =>
              genLoop spec maxRetries fuel (attempt + 1) (callIdx + 1) clock2
                defaultModel (calls ++ [modelName]) sleeps
          | .retrySleep delay =>
              genLoop spec maxRetries fuel (attempt + 1) (callIdx + 1) (clock2 + delay)
                modelName (calls ++ [modelName]) (sleeps ++ [delay])
          | .throwMsg m => ⟨.thrown m, calls ++ [modelName], sleeps⟩

/-- `GeminiService.generateReply(history, userMessage)` starting from the
service's current model name.  History and user message go to the black-box
upstream, whose behavior is already fixed per call by `spec`. -/
def generateReply (spec : UpstreamSpec) (modelName : String)
    (_history : List ChatMessage) (_userMessage : String) : GenTrace :=
  genLoop spec geminiMaxRetries geminiMaxRetries 1 1 0 modelName [] []

/-! Single-step unfolding lemmas for `genLoop`. -/

theorem genLoop_step_ok {spec : UpstreamSpec} {mr fuel attempt callIdx clock : Nat}
    {model : String} {calls : List String} {sleeps : List Nat}
    {reply : String} {tokens : Option Nat}
    (hres : spec.result callIdx model = .ok reply tokens)
    (hsettle : spec.settleMs callIdx model ≤ geminiTimeoutMs) :
    genLoop spec mr (fuel + 1) attempt callIdx clock model calls sleeps
      = ⟨.ok reply tokens (clock + spec.settleMs callIdx model), calls ++ [model], sleeps⟩ := by
  simp [genLoop, hres, hsettle, Nat.min_eq_left hsettle]

theorem genLoop_step_throw {spec : UpstreamSpec} {mr fuel attempt callIdx clock : Nat}
    {model : String} {calls : List String} {sleeps : List Nat}
    {st : Option Nat} {msg m : String}
    (hres : spec.result callIdx model = .err st msg)
    (hsettle : spec.settleMs callIdx model ≤ geminiTimeoutMs)
    (hdec : catchDecision mr attempt model st msg = .throwMsg m) :
    genLoop spec mr (fuel + 1) attempt callIdx clock model calls sleeps
      = ⟨.thrown m, calls ++ [model], sleeps⟩ := by
  simp [genLoop, hres, hsettle, hdec]

theorem genLoop_step_sleep {spec : UpstreamSpec} {mr fuel attempt callIdx clock : Nat}
    {model : String} {calls : List String} {sleeps : List Nat}
    {st : Option Nat} {msg : String} {d : Nat}
    (hres : spec.result callIdx model = .err st msg)
    (hsettle : spec.settleMs callIdx model ≤ geminiTimeoutMs)
    (hdec : catchDecision mr attempt model st msg = .retrySleep d) :
    genLoop spec mr (fuel + 1) attempt callIdx clock model calls sleeps
      = genLoop spec mr fuel (attempt + 1) (callIdx + 1)
          (clock + spec.settleMs callIdx model + d) model (calls ++ [model]) (sleeps ++ [d]) := by
  simp [genLoop, hres, hsettle, hdec, Nat.min_eq_left hsettle]

theorem genLoop_step_fallback {spec : UpstreamSpec} {mr fuel attempt callIdx clock : Nat}
    {model : String} {calls : List String} {sleeps : List Nat}
    {st : Option Nat} {msg : String}
    (hres : spec.result callIdx model = .err st msg)
    (hsettle : spec.settleMs callIdx model ≤ geminiTimeoutMs)
    (hdec : catchDecision mr attempt model st msg = .retryFallback) :
    genLoop spec mr (fuel + 1) attempt callIdx clock model calls sleeps
      = genLoop spec mr fuel (attempt + 1) (callIdx + 1)
          (clock + spec.settleMs callIdx model) defaultModel (calls ++ [model]) sleeps := by
  simp [genLoop, hres, hsettle, hdec, Nat.min_eq_left hsettle]

theorem genLoop_step_timeout {spec : UpstreamSpec} {mr fuel attempt callIdx clock : Nat}
    {model : String} {calls : List String} {sleeps : List Nat}
    (hsettle : geminiTimeoutMs < spec.settleMs callIdx model) :
    genLoop spec mr (fuel + 1) attempt callIdx clock model calls sleeps
      = ⟨.thrown (aiServiceErrorMessage timedOutMessage), calls ++ [model], sleeps⟩ := by
  have h1 : ¬ spec.settleMs callIdx model ≤ geminiTimeoutMs := not_le.mpr hsettle
  have hrl : isRateLimitErr none timedOutMessage = false := by decide
  have hdec : catchDecision mr attempt model none timedOutMessage
      = .throwMsg (aiServiceErrorMessage timedOutMessage) := by
    simp [catchDecision, hrl]
  simp [genLoop, h1, hdec]

/-- The catch block of `POST /api/chat/message` (`chat.routes.ts`): maps a
thrown error's message to the HTTP status and `errorCode` sent to the client,
checking `RATE_LIMIT`, then `timed out`/`TIMEOUT`, then
`MODEL_NOT_FOUND`/`AI_SERVICE_ERROR`, in source order. -/
def classifyError (msg : String) : Nat × String :=
  if strIncludes msg "RATE_LIMIT" then (429, "RATE_LIMIT")
  else if strIncludes msg "timed out" || strIncludes msg "TIMEOUT" then (504, "TIMEOUT")
  else if strIncludes msg "MODEL_NOT_FOUND" || strIncludes msg "AI_SERVICE_ERROR" then
    (503, "SERVICE_UNAVAILABLE")
  else (500, "UNKNOWN")

/-- Claim C5 — history formatter: formatting `n` stored messages yields `n`
turns in order; turn `i` keeps the stored role except that `ai` becomes
`model`, and wraps the text in a one-element `parts` list; the empty sequence
maps to the empty sequence. -/
theorem history_formatter_c5 (msgs : List StoredMessage) :
    (formatHistoryForGemini msgs).length = msgs.length
    ∧ (∀ (i : Nat) (d1 : ChatMessage) (d2 : StoredMessage), i < msgs.length →
        (formatHistoryForGemini msgs).getD i d1
          = { role := if (msgs.getD i d2).role = "ai" then "model" else (msgs.getD i d2).role
              parts := [{ text := (msgs.getD i d2).text }] })
    ∧ formatHistoryForGemini [] = [] := by
  refine ⟨by simp [formatHistoryForGemini], ?_, rfl⟩
  intro i d1 d2 hi
  rcases hx : msgs[i]? with _ | x
  · exact absurd (List.getElem?_eq_none_iff.mp hx) (not_le.mpr hi)
  · have h1 : (formatHistoryForGemini msgs).getD i d1
        = { role := if x.role = "ai" then "model" else x.role
            parts := [{ text := x.text }] } := by
      rw [List.getD_eq_getElem?_getD, formatHistoryForGemini, List.getElem?_map, hx]
      rfl
    have h2 : msgs.getD i d2 = x := by
      rw [List.getD_eq_getElem?_getD, hx]
      rfl
    rw [h1, h2]

/-- Closed instance of the formatter claim on a two-message history. -/
theorem history_formatter_c5_witness :
    formatHistoryForGemini [⟨"user", "Hello"⟩, ⟨"ai", "Hi"⟩]
        = [⟨"user", [⟨"Hello"⟩]⟩, ⟨"model", [⟨"Hi"⟩]⟩]
    ∧ (formatHistoryForGemini [⟨"user", "Hello"⟩, ⟨"ai", "Hi"⟩]).getD 1 ⟨"", []⟩
        = ⟨"model", [⟨"Hi"⟩]⟩ := by
  constructor
  · rfl
  · have h := (history_formatter_c5 [⟨"user", "Hello"⟩, ⟨"ai", "Hi"⟩]).2.1 1 ⟨"", []⟩
      ⟨"", ""⟩ (by decide)
    simpa using h

/-- Claim C2 — retry under persistent upstream rate limiting: when every
physical call rejects with a rate-limit error (and no 404 status), the
generator makes exactly 3 calls, sleeps 10 s before attempt 2 and 30 s before
attempt 3, and throws `RATE_LIMIT_EXCEEDED`, which the boundary classifies as
`RATE_LIMIT`/429 — distinct from the generic `AI_SERVICE_ERROR`
classification `SERVICE_UNAVAILABLE`/503.  The delay schedule is
10 s / 30 s / 65 s indexed by the failing attempt, defaulting to 10 s
when exhausted. -/
theorem reply_retry_rate_limit_c2
    (spec : UpstreamSpec) (model : String) (history : List ChatMessage) (u : String)
    (hres : ∀ i m, ∃ st msg, spec.result i m = .err st msg
        ∧ isRateLimitErr st msg = true ∧ st ≠ some 404)
    (hsettle : ∀ i m, spec.settleMs i m ≤ geminiTimeoutMs) :
    generateReply spec model history u
      = ⟨.thrown rateLimitExceededMessage, [model, model, model], [10000, 30000]⟩
    ∧ retryDelay 1 = 10000 ∧ retryDelay 2 = 30000 ∧ retryDelay 3 = 65000
    ∧ (∀ a, 4 ≤ a → retryDelay a = 10000)
    ∧ classifyError rateLimitExceededMessage = (429, "RATE_LIMIT")
    ∧ classifyError maxRetriesMessage = (503, "SERVICE_UNAVAILABLE")
    ∧ classifyError rateLimitExceededMessage ≠ classifyError maxRetriesMessage := by
  obtain ⟨st1, m1, hr1, hrl1, h41⟩ := hres 1 model
  obtain ⟨st2, m2, hr2, hrl2, h42⟩ := hres 2 model
  obtain ⟨st3, m3, hr3, hrl3, h43⟩ := hres 3 model
  have hb1 : (st1 == some 404) = false := beq_eq_false_iff_ne.mpr h41
  have hb2 : (st2 == some 404) = false := beq_eq_false_iff_ne.mpr h42
  have hb3 : (st3 == some 404) = false := beq_eq_false_iff_ne.mpr h43
  have hdec1 : catchDecision geminiMaxRetries 1 model st1 m1 = .retrySleep 10000 := by
    simp [catchDecision, hrl1, hb1, geminiMaxRetries, retryDelay, geminiRetryDelays]
  have hdec2 : catchDecision geminiMaxRetries 2 model st2 m2 = .retrySleep 30000 := by
    simp [catchDecision, hrl2, hb2, geminiMaxRetries, retryDelay, geminiRetryDelays]
  have hdec3 : catchDecision geminiMaxRetries 3 model st3 m3
      = .throwMsg rateLimitExceededMessage := by
    simp [catchDecision, hrl3, hb3, geminiMaxRetries]
  refine ⟨?_, rfl, rfl, rfl, ?_, by decide, by decide, by decide⟩
  · calc generateReply spec model history u
        = genLoop spec geminiMaxRetries (2 + 1) 1 1 0 model [] [] := rfl
      _ = genLoop spec geminiMaxRetries (1 + 1) 2 2
            (0 + spec.settleMs 1 model + 10000) model [model] [10000] :=
          @genLoop_step_sleep spec geminiMaxRetries 2 1 1 0 model [] [] st1 m1 10000
            hr1 (hsettle 1 model) hdec1
      _ = genLoop spec geminiMaxRetries (0 + 1) 3 3
            (0 + spec.settleMs 1 model + 10000 + spec.settleMs 2 model + 30000) model
            [model, model] [10000, 30000] :=
          @genLoop_step_sleep spec geminiMaxRetries 1 2 2
            (0 + spec.settleMs 1 model + 10000) model [model] [10000] st2 m2 30000
            hr2 (hsettle 2 model) hdec2
      _ = ⟨.thrown rateLimitExceededMessage, [model, model, model], [10000, 30000]⟩ :=
          @genLoop_step_throw spec geminiMaxRetries 0 3 3
            (0 + spec.settleMs 1 model + 10000 + spec.settleMs 2 model + 30000) model
            [model, model] [10000, 30000] st3 m3 rateLimitExceededMessage
            hr3 (hsettle 3 model) hdec3
  · intro a ha
    have hnone : geminiRetryDelays[a - 1]? = none := by
      apply List.getElem?_eq_none_iff.mpr
      simp only [geminiRetryDelays, List.length_cons, List.length_nil]
      omega
    simp [retryDelay, hnone]

/-- An upstream that rejects every call with HTTP 429. -/
def alwaysRateLimitedUpstream : UpstreamSpec where
  result := fun _ _ => .err (some 429) "Resource has been exhausted"
  settleMs := fun _ _ => 50

/-- Closed instance of the retry claim against `alwaysRateLimitedUpstream`. -/
theorem reply_retry_rate_limit_c2_witness :
    generateReply alwaysRateLimitedUpstream "gemini-3-flash-preview" [] "hi"
      = ⟨.thrown rateLimitExceededMessage,
         ["gemini-3-flash-preview", "gemini-3-flash-preview", "gemini-3-flash-preview"],
         [10000, 30000]⟩
    ∧ retryDelay 1 = 10000 ∧ retryDelay 2 = 30000 ∧ retryDelay 3 = 65000
    ∧ classifyError rateLimitExceededMessage ≠ classifyError maxRetriesMessage := by
  have h := reply_retry_rate_limit_c2 alwaysRateLimitedUpstream "gemini-3-flash-preview" [] "hi"
    (fun _ _ => ⟨some 429, "Resource has been exhausted", rfl, by decide, by decide⟩)
    (fun _ _ => by show (50 : Nat) ≤ geminiTimeoutMs; decide)
  exact ⟨h.1, h.2.1, h.2.2.1, h.2.2.2.1, h.2.2.2.2.2.2.2⟩

/-- Claim C7 — timeout: from any loop state, if the 30 s timer fires before
the upstream call settles, the attempt throws the timed-out error (classified
`TIMEOUT`/504 at the boundary, distinct from the generic classification), and
the outcome is independent of the abandoned call's result. -/
theorem reply_timeout_c7
    (spec : UpstreamSpec) (fuel attempt callIdx clock : Nat) (model : String)
    (calls : List String) (sleeps : List Nat) (history : List ChatMessage) (u : String)
    (hsettle : geminiTimeoutMs < spec.settleMs callIdx model) :
    genLoop spec geminiMaxRetries (fuel + 1) attempt callIdx clock model calls sleeps
      = ⟨.thrown (aiServiceErrorMessage timedOutMessage), calls ++ [model], sleeps⟩
    ∧ (geminiTimeoutMs < spec.settleMs 1 model →
        generateReply spec model history u
          = ⟨.thrown (aiServiceErrorMessage timedOutMessage), [model], []⟩)
    ∧ classifyError (aiServiceErrorMessage timedOutMessage) = (504, "TIMEOUT")
    ∧ classifyError (aiServiceErrorMessage timedOutMessage) ≠ classifyError maxRetriesMessage
    ∧ (∀ spec2 : UpstreamSpec, spec2.settleMs = spec.settleMs →
        genLoop spec2 geminiMaxRetries (fuel + 1) attempt callIdx clock model calls sleeps
          = genLoop spec geminiMaxRetries (fuel + 1) attempt callIdx clock model calls sleeps) := by
  refine ⟨genLoop_step_timeout hsettle, ?_, by decide, by decide, ?_⟩
  · intro h1
    calc generateReply spec model history u
        = genLoop spec geminiMaxRetries (2 + 1) 1 1 0 model [] [] := rfl
      _ = ⟨.thrown (aiServiceErrorMessage timedOutMessage), [model], []⟩ :=
          genLoop_step_timeout h1
  · intro spec2 hs2
    have h2 : geminiTimeoutMs < spec2.settleMs callIdx model := by rw [hs2]; exact hsettle
    rw [genLoop_step_timeout h2, genLoop_step_timeout hsettle]

/-- An upstream whose calls settle only after 30001 ms. -/
def slowUpstream : UpstreamSpec where
  result := fun _ _ => .ok "late reply" none
  settleMs := fun _ _ => 30001

/-- Closed instance of the timeout claim against `slowUpstream`: the late
success is never used. -/
theorem reply_timeout_c7_witness :
    generateReply slowUpstream defaultModel [] "hi"
      = ⟨.thrown (aiServiceErrorMessage timedOutMessage), [defaultModel], []⟩
    ∧ classifyError (aiServiceErrorMessage timedOutMessage) = (504, "TIMEOUT") := by
  have h := reply_timeout_c7 slowUpstream 2 1 1 0 defaultModel [] [] [] "hi" (by decide)
  exact ⟨h.2.1 (by decide), h.2.2.1⟩

/-- Upstream for the fallback scenarios: any non-default model gets 404; the
default model gets 404 on physical call 1 and succeeds afterwards. -/
def fallbackThenOkUpstream : UpstreamSpec where
  result := fun i m =>
    if m = defaultModel then
      if i = 1 then .err (some 404) "Not Found" else .ok "hello" (some 42)
    else .err (some 404) "Not Found"
  settleMs := fun _ _ => 100

/-- Upstream where the configured model 404s and the default model is
persistently rate-limited: it distinguishes whether the fallback consumed a
loop attempt. -/
def fallbackRateLimitedUpstream : UpstreamSpec where
  result := fun _ m =>
    if m = defaultModel then .err (some 429) "Too Many Requests"
    else .err (some 404) "Not Found"
  settleMs := fun _ _ => 100

/-- Claim C3 fails on the code: with a non-default configured model that 404s
and a default model that is persistently rate-limited, `generateReply` makes
only 3 physical calls and sleeps only once (30 s).  The fallback `continue`
runs the loop's `attempt++`, consuming one of the 3 attempts; were the
rate-limit retry budget unchanged by the fallback, this run would make 4
calls with sleeps of 10 s and 30 s. -/
theorem reply_model_fallback_c3_counterexample :
    generateReply fallbackRateLimitedUpstream "custom-model" [] "hi"
      = ⟨.thrown rateLimitExceededMessage,
         ["custom-model", defaultModel, defaultModel], [30000]⟩
    ∧ (generateReply fallbackRateLimitedUpstream "custom-model" [] "hi").callsMade.length ≠ 4
    ∧ (generateReply fallbackRateLimitedUpstream "custom-model" [] "hi").sleeps
        ≠ [10000, 30000] := by
  decide

/-- Claim C3 amended: on a 404 with a non-default model, `generateReply`
silently switches to the default model and retries immediately (no sleep),
but the fallback retry consumes one iteration of the shared 3-attempt loop,
so one fewer rate-limit retry remains afterwards; a 404 on the default model
throws `MODEL_NOT_FOUND`. -/
theorem reply_model_fallback_c3_amended
    (spec specB : UpstreamSpec) (model : String) (history : List ChatMessage) (u : String)
    (reply : String) (tokens : Option Nat) (msg1 msg2 msgB : String)
    (hmodel : model ≠ defaultModel)
    (hsettle : ∀ i m, spec.settleMs i m ≤ geminiTimeoutMs)
    (h1 : spec.result 1 model = .err (some 404) msg1)
    (h2 : spec.result 2 defaultModel = .ok reply tokens)
    (h3 : spec.result 1 defaultModel = .err (some 404) msg2)
    (hrl2 : isRateLimitErr (some 404) msg2 = false)
    (hsB : ∀ i m, specB.settleMs i m ≤ geminiTimeoutMs)
    (hB1 : specB.result 1 model = .err (some 404) msgB)
    (hB : ∀ i, ∃ msgi, specB.result i defaultModel = .err (some 429) msgi) :
    generateReply spec model history u
      = ⟨.ok reply tokens (0 + spec.settleMs 1 model + spec.settleMs 2 defaultModel),
         [model, defaultModel], []⟩
    ∧ generateReply spec defaultModel history u
      = ⟨.thrown modelNotFoundMessage, [defaultModel], []⟩
    ∧ generateReply specB model history u
      = ⟨.thrown rateLimitExceededMessage, [model, defaultModel, defaultModel], [30000]⟩ := by
  have hbne : (model != defaultModel) = true := bne_iff_ne.mpr hmodel
  have hdecFall : ∀ msg, catchDecision geminiMaxRetries 1 model (some 404) msg
      = .retryFallback := by
    intro msg
    simp [catchDecision, hbne]
  have hdec404 : catchDecision geminiMaxRetries 1 defaultModel (some 404) msg2
      = .throwMsg modelNotFoundMessage := by
    simp [catchDecision, hrl2]
  obtain ⟨msgB2, hB2⟩ := hB 2
  obtain ⟨msgB3, hB3⟩ := hB 3
  have hrl429 : ∀ m, isRateLimitErr (some 429) m = true := by
    intro m
    simp [isRateLimitErr]
  have h429ne404 : ((some 429 : Option Nat) == some 404) = false := by decide
  have hdecSleep : catchDecision geminiMaxRetries 2 defaultModel (some 429) msgB2
      = .retrySleep 30000 := by
    simp [catchDecision, hrl429, h429ne404, geminiMaxRetries, retryDelay, geminiRetryDelays]
  have hdecThrow : catchDecision geminiMaxRetries 3 defaultModel (some 429) msgB3
      = .throwMsg rateLimitExceededMessage := by
    simp [catchDecision, hrl429, h429ne404, geminiMaxRetries]
  refine ⟨?_, ?_, ?_⟩
  · calc generateReply spec model history u
        = genLoop spec geminiMaxRetries (2 + 1) 1 1 0 model [] [] := rfl
      _ = genLoop spec geminiMaxRetries (1 + 1) 2 2
            (0 + spec.settleMs 1 model) defaultModel [model] [] :=
          @genLoop_step_fallback spec geminiMaxRetries 2 1 1 0 model [] [] (some 404) msg1
            h1 (hsettle 1 model) (hdecFall msg1)
      _ = ⟨.ok reply tokens (0 + spec.settleMs 1 model + spec.settleMs 2 defaultModel),
           [model, defaultModel], []⟩ :=
          @genLoop_step_ok spec geminiMaxRetries 1 2 2 (0 + spec.settleMs 1 model)
            defaultModel [model] [] reply tokens h2 (hsettle 2 defaultModel)
  · calc generateReply spec defaultModel history u
        = genLoop spec geminiMaxRetries (2 + 1) 1 1 0 defaultModel [] [] := rfl
      _ = ⟨.thrown modelNotFoundMessage, [defaultModel], []⟩ :=
          @genLoop_step_throw spec geminiMaxRetries 2 1 1 0 defaultModel [] [] (some 404)
            msg2 modelNotFoundMessage h3 (hsettle 1 defaultModel) hdec404
  · calc generateReply specB model history u
        = genLoop specB geminiMaxRetries (2 + 1) 1 1 0 model [] [] := rfl
      _ = genLoop specB geminiMaxRetries (1 + 1) 2 2
            (0 + specB.settleMs 1 model) defaultModel [model] [] :=
          @genLoop_step_fallback specB geminiMaxRetries 2 1 1 0 model [] [] (some 404) msgB
            hB1 (hsB 1 model) (hdecFall msgB)
      _ = genLoop specB geminiMaxRetries (0 + 1) 3 3
            (0 + specB.settleMs 1 model + specB.settleMs 2 defaultModel + 30000)
            defaultModel [model, defaultModel] [30000] :=
          @genLoop_step_sleep specB geminiMaxRetries 1 2 2 (0 + specB.settleMs 1 model)
            defaultModel [model] [] (some 429) msgB2 30000
            hB2 (hsB 2 defaultModel) hdecSleep
      _ = ⟨.thrown rateLimitExceededMessage, [model, defaultModel, defaultModel], [30000]⟩ :=
          @genLoop_step_throw specB geminiMaxRetries 0 3 3
            (0 + specB.settleMs 1 model + specB.settleMs 2 defaultModel + 30000)
            defaultModel [model, defaultModel] [30000] (some 429) msgB3
            rateLimitExceededMessage hB3 (hsB 3 defaultModel) hdecThrow

/-- Closed instance of the amended fallback claim. -/
theorem reply_model_fallback_c3_amended_witness :
    generateReply fallbackThenOkUpstream "custom-model" [] "hi"
      = ⟨.ok "hello" (some 42) (0 + 100 + 100), ["custom-model", defaultModel], []⟩
    ∧ generateReply fallbackThenOkUpstream defaultModel [] "hi"
      = ⟨.thrown modelNotFoundMessage, [defaultModel], []⟩
    ∧ generateReply fallbackRateLimitedUpstream "custom-model" [] "hi"
      = ⟨.thrown rateLimitExceededMessage,
         ["custom-model", defaultModel, defaultModel], [30000]⟩ := by
  have h := reply_model_fallback_c3_amended fallbackThenOkUpstream
    fallbackRateLimitedUpstream "custom-model" [] "hi" "hello" (some 42)
    "Not Found" "Not Found" "Not Found"
    (by decide)
    (fun _ _ => by show (100 : Nat) ≤ geminiTimeoutMs; decide)
    rfl rfl rfl (by decide)
    (fun _ _ => by show (100 : Nat) ≤ geminiTimeoutMs; decide)
    rfl
    (fun i => ⟨"Too Many Requests", rfl⟩)
  exact h

/-! ## Conversation store and chat service (`chat.service.ts`)

The Prisma store is modelled relationally: a `Conversation` table, a
`Message` table with a `conversationId` foreign key (creation order = list
order, generated ids strictly increasing), and a shared id counter. -/

structure ConversationRow where
  id : Nat
  sessionId : String
deriving Repr, DecidableEq

structure MessageRow where
  id : Nat
  conversationId : Nat
  role : String
  text : String
deriving Repr, DecidableEq

structure DB where
  convs : List ConversationRow
  messages : List MessageRow
  nextId : Nat
deriving Repr, DecidableEq

/-- `prisma.conversation.findUnique({ where: { sessionId } })`. -/
def findConvRow (db : DB) (sessionId : String) : Option ConversationRow :=
  db.convs.find? (fun c => c.sessionId == sessionId)

/-- A conversation's messages in creation order (the `include` clause). -/
def convMessages (db : DB) (convId : Nat) : List MessageRow :=
  db.messages.filter (fun m => m.conversationId == convId)

/-- Message of Prisma's `P2002` unique-constraint failure on `sessionId`. -/
def uniqueViolationMessage : String :=
  "Unique constraint failed on the fields: (sessionId)"

/-- Message surfaced when the atomic `$transaction` write fails. -/
def persistFailureMessage : String := "Transaction failed"

/-- `prisma.conversation.create({ data: { sessionId } })` — rejects with the
uniqueness-constraint failure when a row with this session token exists. -/
def createConv (db : DB) (sessionId : String) : Except String (ConversationRow × DB) :=
  if (db.convs.find? (fun c => c.sessionId == sessionId)).isSome then
    .error uniqueViolationMessage
  else
    .ok (⟨db.nextId, sessionId⟩,
         ⟨db.convs ++ [⟨db.nextId, sessionId⟩], db.messages, db.nextId + 1⟩)

/-- `ChatService.findOrCreateConversation(sessionId)`: look up, create when
absent.  A failure of the create is not caught — it propagates. -/
def findOrCreateConversation (db : DB) (sessionId : String) :
    Except String (ConversationRow × DB) :=
  match findConvRow db sessionId with
  | some c => .ok (c, db)
  | none => createConv db sessionId

/-- `prisma.$transaction([create user message, create model message])`:
atomic — both rows are appended (user turn first) or, when the store rejects
the transaction, nothing is written and the failure surfaces.  Returns the
model message (the destructuring `[, aiMessage]`). -/
def persistTurns (txOk : Bool) (db : DB) (convId : Nat) (userText aiText : String) :
    Except String (MessageRow × DB) :=
  if txOk then
    .ok (⟨db.nextId + 1, convId, "ai", aiText⟩,
         ⟨db.convs,
          db.messages ++ [⟨db.nextId, convId, "user", userText⟩,
                          ⟨db.nextId + 1, convId, "ai", aiText⟩],
          db.nextId + 2⟩)
  else .error persistFailureMessage

/-- The history handed to the generator: the conversation's stored messages,
mapped to `{role, text}` and formatted. -/
def storedHistory (db : DB) (convId : Nat) : List ChatMessage :=
  formatHistoryForGemini ((convMessages db convId).map (fun m => ⟨m.role, m.text⟩))

/-- The response `ChatService.processMessage` returns on success. -/
structure ChatResponse where
  reply : String
  sessionId : String
  messageId : Nat
  tokensUsed : Option Nat
  responseTime : Nat
deriving Repr, DecidableEq

/-- `ChatService.processMessage(sessionId, userMessage)`: resolve the
conversation, format its history, generate the reply, then persist the two
turns atomically.  Returns the outcome together with the resulting store. -/
def processMessage (spec : UpstreamSpec) (modelName : String) (txOk : Bool)
    (db : DB) (sessionId userMessage : String) : Except String ChatResponse × DB :=
  match findOrCreateConversation db sessionId with
  | .error e => (.error e, db)
  | .ok (conversation, db1) =>
      let history := storedHistory db1 conversation.id
      match (generateReply spec modelName history userMessage).outcome with
      | .thrown e => (.error e, db1)
      | .ok reply tokens rt =>
          match persistTurns txOk db1 conversation.id userMessage reply with
          | .error e => (.error e, db1)
          | .ok (aiMessage, db2) =>
              (.ok ⟨reply, sessionId, aiMessage.id, tokens, rt⟩, db2)

instance {ε α : Type} [DecidableEq ε] [DecidableEq α] : DecidableEq (Except ε α) := fun x y =>
  match x, y with
  | .error a, .error b =>
      if h : a = b then .isTrue (by subst h; rfl)
      else .isFalse (by intro hc; cases hc; exact h rfl)
  | .ok a, .ok b =>
      if h : a = b then .isTrue (by subst h; rfl)
      else .isFalse (by intro hc; cases hc; exact h rfl)
  | .error _, .ok _ => .isFalse (by intro hc; cases hc)
  | .ok _, .error _ => .isFalse (by intro hc; cases hc)

/-- Claim C4 — orchestrator atomicity: a generation failure propagates with
no message persisted (for an existing session the store is untouched; for a
fresh session only the empty conversation row from resolution exists, the
message table is unchanged); on success exactly the user turn and then the
model turn are appended in one atomic write and the model message's id is
returned with the reply and metrics; a rejected transaction writes nothing
and surfaces as a generic failure. -/
theorem chat_orchestrator_atomicity_c4
    (spec : UpstreamSpec) (modelName : String) (txOk : Bool) (db : DB)
    (sessionId userMessage : String) :
    (∀ conv e, findConvRow db sessionId = some conv →
      (generateReply spec modelName (storedHistory db conv.id) userMessage).outcome
          = .thrown e →
      processMessage spec modelName txOk db sessionId userMessage = (.error e, db))
    ∧ (∀ e, findConvRow db sessionId = none →
      (∀ m ∈ db.messages, ¬ m.conversationId = db.nextId) →
      (generateReply spec modelName (formatHistoryForGemini []) userMessage).outcome
          = .thrown e →
      processMessage spec modelName txOk db sessionId userMessage
        = (.error e, ⟨db.convs ++ [⟨db.nextId, sessionId⟩], db.messages, db.nextId + 1⟩))
    ∧ (∀ conv reply tokens rt, findConvRow db sessionId = some conv →
      (generateReply spec modelName (storedHistory db conv.id) userMessage).outcome
          = .ok reply tokens rt →
      processMessage spec modelName true db sessionId userMessage
        = (.ok ⟨reply, sessionId, db.nextId + 1, tokens, rt⟩,
           ⟨db.convs,
            db.messages ++ [⟨db.nextId, conv.id, "user", userMessage⟩,
                            ⟨db.nextId + 1, conv.id, "ai", reply⟩],
            db.nextId + 2⟩))
    ∧ (∀ conv reply tokens rt, findConvRow db sessionId = some conv →
      (generateReply spec modelName (storedHistory db conv.id) userMessage).outcome
          = .ok reply tokens rt →
      processMessage spec modelName false db sessionId userMessage
        = (.error persistFailureMessage, db)
      ∧ classifyError persistFailureMessage = (500, "UNKNOWN")) := by
  refine ⟨?_, ?_, ?_, ?_⟩
  · intro conv e hfind hgen
    have hfoc : findOrCreateConversation db sessionId = .ok (conv, db) := by
      simp [findOrCreateConversation, hfind]
    simp [processMessage, hfoc, hgen]
  · intro e hfind hno hgen
    have hfind2 : db.convs.find? (fun c => c.sessionId == sessionId) = none := hfind
    have hfoc : findOrCreateConversation db sessionId
        = .ok (⟨db.nextId, sessionId⟩,
               ⟨db.convs ++ [⟨db.nextId, sessionId⟩], db.messages, db.nextId + 1⟩) := by
      simp [findOrCreateConversation, findConvRow, createConv, hfind2]
    have hmsgs : convMessages
        ⟨db.convs ++ [⟨db.nextId, sessionId⟩], db.messages, db.nextId + 1⟩ db.nextId = [] := by
      simp only [convMessages, List.filter_eq_nil_iff]
      intro m hm
      simpa using hno m hm
    simp [processMessage, hfoc, storedHistory, hmsgs, hgen]
  · intro conv reply tokens rt hfind hgen
    have hfoc : findOrCreateConversation db sessionId = .ok (conv, db) := by
      simp [findOrCreateConversation, hfind]
    simp [processMessage, hfoc, hgen, persistTurns]
  · intro conv reply tokens rt hfind hgen
    have hfoc : findOrCreateConversation db sessionId = .ok (conv, db) := by
      simp [findOrCreateConversation, hfind]
    exact ⟨by simp [processMessage, hfoc, hgen, persistTurns], by decide⟩

/-- Claim C4 fails on the code in one respect: for a fresh session token
whose reply generation then fails, the failure is propagated and no message
is persisted, but the store is not unchanged — the empty conversation row
created during resolution remains. -/
theorem chat_orchestrator_atomicity_c4_counterexample :
    (processMessage slowUpstream defaultModel true ⟨[], [], 0⟩ "s1" "Hi").1
      = .error (aiServiceErrorMessage timedOutMessage)
    ∧ (processMessage slowUpstream defaultModel true ⟨[], [], 0⟩ "s1" "Hi").2
      = ⟨[⟨0, "s1"⟩], [], 1⟩
    ∧ (processMessage slowUpstream defaultModel true ⟨[], [], 0⟩ "s1" "Hi").2
      ≠ ⟨[], [], 0⟩
    ∧ (processMessage slowUpstream defaultModel true ⟨[], [], 0⟩ "s1" "Hi").2.messages
      = [] := by
  decide

/-- An upstream whose first call immediately succeeds. -/
def okUpstream : UpstreamSpec where
  result := fun _ _ => .ok "Sure!" (some 5)
  settleMs := fun _ _ => 10

/-- A store holding one conversation (`id 7`, token `"sess"`) with two
messages. -/
def sampleDB : DB :=
  ⟨[⟨7, "sess"⟩], [⟨0, 7, "user", "Hi"⟩, ⟨1, 7, "ai", "Hello"⟩], 2⟩

/-- Closed instances of the orchestrator claim: a successful run appends
exactly the two turns, a rejected transaction and a timed-out generation
leave the store unchanged. -/
theorem chat_orchestrator_atomicity_c4_witness :
    processMessage okUpstream defaultModel true sampleDB "sess" "What?"
      = (.ok ⟨"Sure!", "sess", 3, some 5, 10⟩,
         ⟨[⟨7, "sess"⟩],
          [⟨0, 7, "user", "Hi"⟩, ⟨1, 7, "ai", "Hello"⟩,
           ⟨2, 7, "user", "What?"⟩, ⟨3, 7, "ai", "Sure!"⟩], 4⟩)
    ∧ processMessage okUpstream defaultModel false sampleDB "sess" "What?"
      = (.error persistFailureMessage, sampleDB)
    ∧ processMessage slowUpstream defaultModel true sampleDB "sess" "What?"
      = (.error (aiServiceErrorMessage timedOutMessage), sampleDB) := by
  have h1 := chat_orchestrator_atomicity_c4 okUpstream defaultModel true
    sampleDB "sess" "What?"
  have h3 := chat_orchestrator_atomicity_c4 slowUpstream defaultModel true
    sampleDB "sess" "What?"
  exact ⟨h1.2.2.1 ⟨7, "sess"⟩ "Sure!" (some 5) 10 rfl (by decide),
         (h1.2.2.2 ⟨7, "sess"⟩ "Sure!" (some 5) 10 rfl (by decide)).1,
         h3.1 ⟨7, "sess"⟩ (aiServiceErrorMessage timedOutMessage) rfl (by decide)⟩

/-! ## Conversation resolver race (`findOrCreateConversation`)

The resolver's two store operations (the lookup, then — if empty — the
create) are modelled as atomic steps of a task; two concurrent resolves for
the same token are an interleaving of two such tasks. -/

/-- Progress of one `findOrCreateConversation` task. -/
inductive ResolveTask where
  | start
  | afterFind (found : Option ConversationRow)
  | finished (result : Except String ConversationRow)
deriving Repr, DecidableEq

/-- One atomic store operation of the resolver.  A uniqueness failure of the
create is not caught — it becomes the task's result. -/
def resolveStep (sessionId : String) (db : DB) (t : ResolveTask) : DB × ResolveTask :=
  match t with
  | .start => (db, .afterFind (findConvRow db sessionId))
  | .afterFind (some c) => (db, .finished (.ok c))
  | .afterFind none =>
      match createConv db sessionId with
      | .ok (c, db2) => (db2, .finished (.ok c))
      | .error e => (db, .finished (.error e))
  | .finished r => (db, .finished r)

/-- Interleave two resolver tasks for the same session token: `true` steps
the first task, `false` the second. -/
def runTwo (sessionId : String) : List Bool → DB → ResolveTask → ResolveTask →
    DB × ResolveTask × ResolveTask
  | [], db, t1, t2 => (db, t1, t2)
  | b :: rest, db, t1, t2 =>
      if b then
        let s := resolveStep sessionId db t1
        runTwo sessionId rest s.1 s.2 t2
      else
        let s := resolveStep sessionId db t2
        runTwo sessionId rest s.1 t1 s.2

/-- Claim C6 fails on the code: when two resolves for the same never-seen
token race (both find nothing, the first then creates), the loser's create
hits the uniqueness-constraint failure and the resolver propagates it — there
is no lost-race re-fetch. -/
theorem conversation_resolver_c6_counterexample :
    (runTwo "session-1" [true, false, true, false] ⟨[], [], 0⟩ .start .start).2.2
      = .finished (.error uniqueViolationMessage)
    ∧ (runTwo "session-1" [true, false, true, false] ⟨[], [], 0⟩ .start .start).2.1
      = .finished (.ok ⟨0, "session-1"⟩) := by
  decide

/-- Claim C6 amended: resolving an unseen token twice in sequence yields the
same conversation both times and creates no duplicate; but when the create
loses a race (the token appears between this task's lookup and its create),
the resolver propagates the store's uniqueness failure instead of
re-fetching. -/
theorem conversation_resolver_c6_amended
    (db : DB) (sessionId : String)
    (hfresh : findConvRow db sessionId = none) :
    findOrCreateConversation db sessionId
      = .ok (⟨db.nextId, sessionId⟩,
             ⟨db.convs ++ [⟨db.nextId, sessionId⟩], db.messages, db.nextId + 1⟩)
    ∧ findOrCreateConversation
        ⟨db.convs ++ [⟨db.nextId, sessionId⟩], db.messages, db.nextId + 1⟩ sessionId
      = .ok (⟨db.nextId, sessionId⟩,
             ⟨db.convs ++ [⟨db.nextId, sessionId⟩], db.messages, db.nextId + 1⟩)
    ∧ (∀ db3 : DB, findConvRow db3 sessionId ≠ none →
        (resolveStep sessionId db3 (.afterFind none)).2
          = .finished (.error uniqueViolationMessage)) := by
  have hfind2 : db.convs.find? (fun c => c.sessionId == sessionId) = none := hfresh
  refine ⟨?_, ?_, ?_⟩
  · simp [findOrCreateConversation, findConvRow, createConv, hfind2]
  · have hfound : (db.convs ++ [(⟨db.nextId, sessionId⟩ : ConversationRow)]).find?
        (fun c => c.sessionId == sessionId) = some ⟨db.nextId, sessionId⟩ := by
      simp [List.find?_append, hfind2]
    simp [findOrCreateConversation, findConvRow, hfound]
  · intro db3 h3
    have hsome : (db3.convs.find? (fun c => c.sessionId == sessionId)).isSome = true :=
      Option.isSome_iff_ne_none.mpr h3
    simp [resolveStep, createConv, hsome]

/-- Closed instance of the amended resolver claim on an empty store. -/
theorem conversation_resolver_c6_amended_witness :
    findOrCreateConversation ⟨[], [], 0⟩ "session-1"
      = .ok (⟨0, "session-1"⟩, ⟨[⟨0, "session-1"⟩], [], 1⟩)
    ∧ findOrCreateConversation ⟨[⟨0, "session-1"⟩], [], 1⟩ "session-1"
      = .ok (⟨0, "session-1"⟩, ⟨[⟨0, "session-1"⟩], [], 1⟩)
    ∧ (resolveStep "session-1" ⟨[⟨0, "session-1"⟩], [], 1⟩ (.afterFind none)).2
      = .finished (.error uniqueViolationMessage) := by
  have h := conversation_resolver_c6_amended ⟨[], [], 0⟩ "session-1" rfl
  exact ⟨h.1, h.2.1, h.2.2 ⟨[⟨0, "session-1"⟩], [], 1⟩ (by decide)⟩

/-! ## HTTP validation for `POST /api/chat/message` (`chat.routes.ts`)

The Zod schema first trims the message, then checks that the trimmed value is
non-empty and at most 2000 characters, and that the session id has UUID
shape; only then does the handler call the chat service. -/

/-- JavaScript `String.prototype.trim`. -/
def jsTrim (s : String) : String :=
  let l := s.toList.dropWhile Char.isWhitespace
  String.mk ((l.reverse.dropWhile Char.isWhitespace).reverse)

/-- `.length` of a JavaScript string (for the BMP strings used here, the
character count). -/
def jsLength (s : String) : Nat := s.toList.length

def isHexDigit (c : Char) : Bool :=
  c.isDigit || ('a' ≤ c && c ≤ 'f') || ('A' ≤ c && c ≤ 'F')

/-- Split a character list at dashes (accumulator holds the current group
reversed). -/
def splitDash : List Char → List Char → List (List Char)
  | [], acc => [acc.reverse]
  | c :: cs, acc =>
      if c = '-' then acc.reverse :: splitDash cs []
      else splitDash cs (c :: acc)

/-- `z.string().uuid()`: five dash-separated groups of 8-4-4-4-12
hexadecimal digits. -/
def isUuidShape (s : String) : Bool :=
  let parts := splitDash s.toList []
  parts.length == 5
    && (parts.zip [8, 4, 4, 4, 12]).all
        (fun pr => pr.1.length == pr.2 && pr.1.all isHexDigit)

/-- The JSON body of `POST /api/chat/message`. -/
structure RequestBody where
  message : String
  sessionId : String
deriving Repr, DecidableEq

/-- `chatMessageSchema.safeParse`: on success returns the transformed
(trimmed) message together with the session id. -/
def chatMessageSchema (body : RequestBody) : Option (String × String) :=
  let trimmed := jsTrim body.message
  if 0 < jsLength trimmed ∧ jsLength trimmed ≤ 2000 ∧ isUuidShape body.sessionId = true then
    some (trimmed, body.sessionId)
  else none

/-- What the route handler sends back, together with the resulting store and
the number of physical upstream calls made while handling the request. -/
structure RouteResult where
  status : Nat
  errorCode : Option String
  response : Option ChatResponse
  db : DB
  upstreamCalls : Nat
deriving Repr, DecidableEq

/-- Physical upstream calls made by a `processMessage` run. -/
def upstreamCallCount (spec : UpstreamSpec) (modelName : String) (db : DB)
    (sessionId message : String) : Nat :=
  match findOrCreateConversation db sessionId with
  | .error _ => 0
  | .ok (conv, db1) =>
      (generateReply spec modelName (storedHistory db1 conv.id) message).callsMade.length

/-- The `POST /api/chat/message` handler body: validate, then process, then
map a thrown error to status and error code. -/
def postChatMessage (spec : UpstreamSpec) (modelName : String) (txOk : Bool)
    (db : DB) (body : RequestBody) : RouteResult :=
  match chatMessageSchema body with
  | none => ⟨400, some "VALIDATION_ERROR", none, db, 0⟩
  | some (message, sessionId) =>
      let calls := upstreamCallCount spec modelName db sessionId message
      let r := processMessage spec modelName txOk db sessionId message
      match r.1 with
      | .ok resp => ⟨200, none, some resp, r.2, calls⟩
      | .error e => ⟨(classifyError e).1, some (classifyError e).2, none, r.2, calls⟩

def sampleUuid : String := "123e4567-e89b-42d3-a456-426614174000"

def msg2000 : String := String.mk (List.replicate 2000 'a')

def msg2001 : String := String.mk (List.replicate 2001 'a')

def msg2001padded : String := String.mk (List.replicate 2000 'a' ++ [' '])

theorem dropWhile_ws_replicate (n : Nat) :
    (List.replicate n 'a').dropWhile Char.isWhitespace = List.replicate n 'a' := by
  cases n with
  | zero => rfl
  | succ m =>
      rw [List.replicate_succ, List.dropWhile_cons]
      simp

theorem jsTrim_replicate (n : Nat) :
    jsTrim (String.mk (List.replicate n 'a')) = String.mk (List.replicate n 'a') := by
  show String.mk (((List.replicate n 'a').dropWhile
      Char.isWhitespace).reverse.dropWhile Char.isWhitespace).reverse
    = String.mk (List.replicate n 'a')
  rw [dropWhile_ws_replicate, List.reverse_replicate, dropWhile_ws_replicate,
    List.reverse_replicate]

theorem jsTrim_padded (n : Nat) :
    jsTrim (String.mk (List.replicate (n + 1) 'a' ++ [' ']))
      = String.mk (List.replicate (n + 1) 'a') := by
  have h1 : (List.replicate (n + 1) 'a' ++ [' ']).dropWhile Char.isWhitespace
      = List.replicate (n + 1) 'a' ++ [' '] := by
    rw [List.replicate_succ, List.cons_append, List.dropWhile_cons]
    simp
  have h2 : (List.replicate (n + 1) 'a' ++ [' ']).reverse
      = ' ' :: List.replicate (n + 1) 'a' := by
    rw [List.reverse_append, List.reverse_replicate]
    rfl
  have h3 : (' ' :: List.replicate (n + 1) 'a').dropWhile Char.isWhitespace
      = List.replicate (n + 1) 'a' := by
    rw [List.dropWhile_cons]
    simp [dropWhile_ws_replicate]
  show String.mk (((List.replicate (n + 1) 'a' ++ [' ']).dropWhile
      Char.isWhitespace).reverse.dropWhile Char.isWhitespace).reverse
    = String.mk (List.replicate (n + 1) 'a')
  rw [h1, h2, h3, List.reverse_replicate]

/-- Claim C9 fails on the code as stated: trimming happens before the length
check, so a 2001-character message consisting of 2000 `a`s and a trailing
space is accepted — the handler proceeds to the upstream call and returns
200. -/
theorem message_length_validation_c9_counterexample :
    jsLength msg2001padded = 2001
    ∧ (postChatMessage okUpstream defaultModel true ⟨[], [], 0⟩
        ⟨msg2001padded, sampleUuid⟩).status = 200
    ∧ (postChatMessage okUpstream defaultModel true ⟨[], [], 0⟩
        ⟨msg2001padded, sampleUuid⟩).errorCode ≠ some "VALIDATION_ERROR"
    ∧ (postChatMessage okUpstream defaultModel true ⟨[], [], 0⟩
        ⟨msg2001padded, sampleUuid⟩).upstreamCalls = 1 := by
  have htrim : jsTrim msg2001padded = msg2000 := jsTrim_padded 1999
  have hlen2000 : jsLength msg2000 = 2000 := by
    show (List.replicate 2000 'a').length = 2000
    rw [List.length_replicate]
  have huuid : isUuidShape sampleUuid = true := by decide
  have hschema : chatMessageSchema ⟨msg2001padded, sampleUuid⟩
      = some (msg2000, sampleUuid) := by
    rw [chatMessageSchema]
    simp only [htrim, hlen2000, huuid]
    norm_num
  have hfoc : findOrCreateConversation ⟨[], [], 0⟩ sampleUuid
      = .ok (⟨0, sampleUuid⟩, ⟨[⟨0, sampleUuid⟩], [], 1⟩) := rfl
  have hgen : (generateReply okUpstream defaultModel
      (storedHistory ⟨[⟨0, sampleUuid⟩], [], 1⟩ 0) msg2000).outcome
      = .ok "Sure!" (some 5) 10 := rfl
  have hproc : processMessage okUpstream defaultModel true ⟨[], [], 0⟩ sampleUuid msg2000
      = (.ok ⟨"Sure!", sampleUuid, 2, some 5, 10⟩,
         ⟨[⟨0, sampleUuid⟩], [⟨1, 0, "user", msg2000⟩, ⟨2, 0, "ai", "Sure!"⟩], 3⟩) := by
    simp [processMessage, hfoc, hgen, persistTurns]
  have hcount : upstreamCallCount okUpstream defaultModel ⟨[], [], 0⟩ sampleUuid msg2000
      = 1 := rfl
  have hroute : postChatMessage okUpstream defaultModel true ⟨[], [], 0⟩
      ⟨msg2001padded, sampleUuid⟩
      = ⟨200, none, some ⟨"Sure!", sampleUuid, 2, some 5, 10⟩,
         ⟨[⟨0, sampleUuid⟩], [⟨1, 0, "user", msg2000⟩, ⟨2, 0, "ai", "Sure!"⟩], 3⟩, 1⟩ := by
    simp [postChatMessage, hschema, hproc, hcount]
  refine ⟨?_, by rw [hroute], by rw [hroute]; simp, by rw [hroute]⟩
  show (List.replicate 2000 'a' ++ [' ']).length = 2001
  rw [List.length_append, List.length_replicate]
  rfl

/-- Claim C9 amended: with a valid-UUID session id, a message whose trimmed
length is 2000 passes validation (processing proceeds), while one whose
trimmed length is 2001 is rejected with 400 / `VALIDATION_ERROR`, the store
unchanged and zero upstream calls made. -/
theorem message_length_validation_c9_amended
    (spec : UpstreamSpec) (modelName : String) (txOk : Bool) (db : DB)
    (body : RequestBody)
    (huuid : isUuidShape body.sessionId = true) :
    (jsLength (jsTrim body.message) = 2000 →
      chatMessageSchema body = some (jsTrim body.message, body.sessionId))
    ∧ (jsLength (jsTrim body.message) = 2001 →
      postChatMessage spec modelName txOk db body
        = ⟨400, some "VALIDATION_ERROR", none, db, 0⟩) := by
  constructor
  · intro h
    simp [chatMessageSchema, h, huuid]
  · intro h
    have hschema : chatMessageSchema body = none := by
      simp [chatMessageSchema, h]
    simp [postChatMessage, hschema]

/-- Closed instances of the amended boundary claim: 2000 `a`s are accepted
end-to-end (status 200), 2001 `a`s are rejected with 400 and no upstream
call. -/
theorem message_length_validation_c9_amended_witness :
    chatMessageSchema ⟨msg2000, sampleUuid⟩ = some (jsTrim msg2000, sampleUuid)
    ∧ postChatMessage okUpstream defaultModel true ⟨[], [], 0⟩ ⟨msg2001, sampleUuid⟩
        = ⟨400, some "VALIDATION_ERROR", none, ⟨[], [], 0⟩, 0⟩
    ∧ (postChatMessage okUpstream defaultModel true ⟨[], [], 0⟩
        ⟨msg2000, sampleUuid⟩).status = 200 := by
  have huuid : isUuidShape sampleUuid = true := by decide
  have htr2000 : jsTrim msg2000 = msg2000 := jsTrim_replicate 2000
  have hlen2000 : jsLength (jsTrim msg2000) = 2000 := by
    rw [htr2000]
    show (List.replicate 2000 'a').length = 2000
    rw [List.length_replicate]
  have htr2001 : jsTrim msg2001 = msg2001 := jsTrim_replicate 2001
  have hlen2001 : jsLength (jsTrim msg2001) = 2001 := by
    rw [htr2001]
    show (List.replicate 2001 'a').length = 2001
    rw [List.length_replicate]
  have hA := message_length_validation_c9_amended okUpstream defaultModel true
    ⟨[], [], 0⟩ ⟨msg2000, sampleUuid⟩ huuid
  have hB := message_length_validation_c9_amended okUpstream defaultModel true
    ⟨[], [], 0⟩ ⟨msg2001, sampleUuid⟩ huuid
  refine ⟨hA.1 hlen2000, hB.2 hlen2001, ?_⟩
  have hschema : chatMessageSchema ⟨msg2000, sampleUuid⟩ = some (msg2000, sampleUuid) := by
    rw [hA.1 hlen2000, htr2000]
  have hfoc : findOrCreateConversation ⟨[], [], 0⟩ sampleUuid
      = .ok (⟨0, sampleUuid⟩, ⟨[⟨0, sampleUuid⟩], [], 1⟩) := rfl
  have hgen : (generateReply okUpstream defaultModel
      (storedHistory ⟨[⟨0, sampleUuid⟩], [], 1⟩ 0) msg2000).outcome
      = .ok "Sure!" (some 5) 10 := rfl
  have hproc : processMessage okUpstream defaultModel true ⟨[], [], 0⟩ sampleUuid msg2000
      = (.ok ⟨"Sure!", sampleUuid, 2, some 5, 10⟩,
         ⟨[⟨0, sampleUuid⟩], [⟨1, 0, "user", msg2000⟩, ⟨2, 0, "ai", "Sure!"⟩], 3⟩) := by
    simp [processMessage, hfoc, hgen, persistTurns]
  have hcount : upstreamCallCount okUpstream defaultModel ⟨[], [], 0⟩ sampleUuid msg2000
      = 1 := rfl
  simp [postChatMessage, hschema, hproc, hcount]

end AIChat
